import Mathlib

/-!
Shallow embedding of the weather-lookup app in `src/src/App.tsx`.

The app is a single React component. Its logic consists of:
* a hardcoded API token (line 96);
* a formik form whose Yup schema trims the city name and requires it
  non-empty (lines 110-114), producing "Please enter a city name." on failure;
* an `onSubmit` handler (lines 115-145) that guards on the token, issues two
  sequential HTTP GETs (current conditions, then forecast), samples the
  forecast list by index mod 8 (line 129), and updates the `weather`,
  `location` and `fetchError` state;
* a render that shows the temperature with suffix "C"/"F" chosen by the
  *current* context unit (line 183);
* a `UnitProvider` whose `toggle` flips "metric"/"imperial" (lines 212-221).

The two network calls are modelled by an oracle giving each request's outcome
(`none` = the promise rejected: network error, unknown city, non-2xx).
`onSubmit` is modelled as the list of effects it performs in order
(requests issued and state setters called), so both the final state and the
intermediate states of a submission are visible to the theorems.
Numeric JSON payload fields (temperature, coordinates) are carried as `Int`;
the app copies them without arithmetic, so the carrier type is irrelevant.
-/

namespace Weather

/-- Line 96: `const API_TOKEN = "532e524ebf5657e44968d0cc21a1d155"` (a
hardcoded literal; the `process.env` read is commented out). -/
def API_TOKEN : String := "532e524ebf5657e44968d0cc21a1d155"

/-- Line 117: message set when the token is falsy. -/
def missingKeyMsg : String := "API key is missing. Please check your .env configuration."

/-- Line 143: message set in the `catch` branch. -/
def fetchFailMsg : String :=
  "Oops! Couldn't retrieve data. Please double-check the city name or try again later."

/-- Line 113: the Yup `required` message. -/
def emptyCityMsg : String := "Please enter a city name."

/-- Fields of the current-conditions JSON payload the app consumes:
`name`, `main.temp`, `weather[0].icon`, `weather[0].description`,
`coord.lat`, `coord.lon`. -/
structure WeatherNow where
  name : String
  mainTemp : Int
  icon : String
  description : String
  coordLat : Int
  coordLon : Int
deriving DecidableEq

/-- One entry of the forecast payload's `list`: `dt_txt` and `main.temp`. -/
structure ForecastEntry where
  dt_txt : String
  mainTemp : Int
deriving DecidableEq

/-- The forecast JSON payload: its `list` field. -/
structure ForecastResp where
  list : List ForecastEntry
deriving DecidableEq

/-- Lines 98-101: `interface WeatherData { now: any; future: any[] }`. -/
structure WeatherData where
  now : WeatherNow
  future : List ForecastEntry
deriving DecidableEq

/-- Line 106: the `location` state `{ lat, lon }`. -/
structure Location where
  lat : Int
  lon : Int
deriving DecidableEq

/-- The component state: `weather` (line 105), `location` (line 106),
`fetchError` (line 107), and the context `unit` (line 213). -/
structure AppState where
  weather : Option WeatherData
  location : Location
  fetchError : String
  unit : String
deriving DecidableEq

/-- Initial state: `useState<WeatherData|null>(null)`, `{lat: 0, lon: 0}`,
`""`, and `useState("metric")`. -/
def initialState : AppState :=
  { weather := none, location := { lat := 0, lon := 0 }, fetchError := "", unit := "metric" }

/-- An outgoing HTTP GET, identified by endpoint and the three query
parameters `q`, `appid`, `units` (lines 122-127). -/
inductive Request where
  | currentWeather (q appid units : String)
  | forecast (q appid units : String)
deriving DecidableEq

/-- The `q` query parameter of a request. -/
def Request.q : Request → String
  | .currentWeather q _ _ => q
  | .forecast q _ _ => q

/-- The `units` query parameter of a request. -/
def Request.units : Request → String
  | .currentWeather _ _ u => u
  | .forecast _ _ u => u

/-- The URL the request is sent to, as interpolated on lines 123 and 126. -/
def requestUrl : Request → String
  | .currentWeather q appid units =>
      "https://api.openweathermap.org/data/2.5/weather?q=" ++ q ++
        "&appid=" ++ appid ++ "&units=" ++ units
  | .forecast q appid units =>
      "https://api.openweathermap.org/data/2.5/forecast?q=" ++ q ++
        "&appid=" ++ appid ++ "&units=" ++ units

/-- An effect performed by an event handler, in program order: a request
issued by `axios.get`, or a call to one of the state setters. -/
inductive Event where
  | request (r : Request)
  | setWeather (w : WeatherData)
  | setLocation (c : Location)
  | setFetchError (m : String)
  | setUnit (u : String)
deriving DecidableEq

/-- Outcome of each network call, indexed by the query parameters
(q, appid, units). `none` models a rejected promise. -/
structure Oracle where
  current : String → String → String → Option WeatherNow
  forecast : String → String → String → Option ForecastResp

/-- JS `Array.prototype.filter` with the element-index callback argument,
threading the running index. -/
def filterWithIndexFrom (p : Nat → α → Bool) : Nat → List α → List α
  | _, [] => []
  | i, a :: rest =>
      if p i a then a :: filterWithIndexFrom p (i + 1) rest
      else filterWithIndexFrom p (i + 1) rest

/-- JS `Array.prototype.filter((x, idx) => ...)`, indices from 0. -/
def filterWithIndex (p : Nat → α → Bool) (l : List α) : List α :=
  filterWithIndexFrom p 0 l

/-- Line 129: `forecastData.data.list.filter((_, idx) => idx % 8 === 0)`. -/
def dailyData (l : List ForecastEntry) : List ForecastEntry :=
  filterWithIndex (fun idx _ => idx % 8 == 0) l

/-- Lines 115-145: the formik `onSubmit` handler, as the list of effects it
performs in order. `token` is `API_TOKEN` in the app; `!API_TOKEN` is true
exactly when the string is empty. On a rejected promise control jumps to the
`catch`, so after a failed current-conditions call the forecast request is
never issued, and the three setters run only after both calls resolve. -/
def onSubmitEvents (oracle : Oracle) (token unit cityName : String) : List Event :=
  if token = "" then
    [Event.setFetchError missingKeyMsg]
  else
    match oracle.current cityName token unit with
    | none =>
        [Event.request (Request.currentWeather cityName token unit),
         Event.setFetchError fetchFailMsg]
    | some currentData =>
        match oracle.forecast cityName token unit with
        | none =>
            [Event.request (Request.currentWeather cityName token unit),
             Event.request (Request.forecast cityName token unit),
             Event.setFetchError fetchFailMsg]
        | some forecastData =>
            [Event.request (Request.currentWeather cityName token unit),
             Event.request (Request.forecast cityName token unit),
             Event.setWeather { now := currentData, future := dailyData forecastData.list },
             Event.setLocation { lat := currentData.coordLat, lon := currentData.coordLon },
             Event.setFetchError ""]

/-- Effect of a single event on the component state. -/
def applyEvent (s : AppState) : Event → AppState
  | .request _ => s
  | .setWeather w => { s with weather := some w }
  | .setLocation c => { s with location := c }
  | .setFetchError m => { s with fetchError := m }
  | .setUnit u => { s with unit := u }

/-- State after a list of events. -/
def applyEvents (s : AppState) (es : List Event) : AppState :=
  es.foldl applyEvent s

/-- The network requests contained in an effect list, in order. -/
def requestsOf (es : List Event) : List Request :=
  es.filterMap fun e =>
    match e with
    | .request r => some r
    | _ => none

/-- JS `String.prototype.trim`: strip leading and trailing whitespace. -/
def trimString (s : String) : String :=
  String.mk (((s.data.dropWhile Char.isWhitespace).reverse.dropWhile
    Char.isWhitespace).reverse)

/-- Lines 112-114: `Yup.string().trim().required("Please enter a city name.")`.
The trim transform runs before `required`, so validation fails exactly when
the trimmed string is empty; the transformed value is not written back into
the form values. -/
def validateCityName (cityName : String) : Option String :=
  if trimString cityName = "" then some emptyCityMsg else none

/-- Result of a form submission: the new state, the formik validation error
(shown on line 166), and the effects the submit handler performed. -/
structure SubmitResult where
  state : AppState
  validationError : Option String
  events : List Event
deriving DecidableEq

/-- A full form submission: formik validates first and calls `onSubmit` only
when validation passes, passing the raw (untransformed) form values. -/
def handleSubmit (oracle : Oracle) (token cityName : String) (s : AppState) : SubmitResult :=
  match validateCityName cityName with
  | some msg => { state := s, validationError := some msg, events := [] }
  | none =>
      let es := onSubmitEvents oracle token s.unit cityName
      { state := applyEvents s es, validationError := none, events := es }

/-- Line 214: `setUnit(prev => (prev === "metric" ? "imperial" : "metric"))`. -/
def toggleUnit (u : String) : String :=
  if u == "metric" then "imperial" else "metric"

/-- The `toggle` handler's effects: exactly one `setUnit` call, no requests. -/
def toggleEvents (s : AppState) : List Event :=
  [Event.setUnit (toggleUnit s.unit)]

/-- State after clicking the toggle button (line 169). -/
def handleToggle (s : AppState) : AppState :=
  applyEvents s (toggleEvents s)

/-- Line 183: the suffix rendered next to the temperature,
`unit === "metric" ? "C" : "F"`, reading the current context unit. -/
def unitSuffix (u : String) : String :=
  if u == "metric" then "C" else "F"

/-- Line 183 as a whole: the h3 text, rendered only when `weather` is set
(line 175). -/
def renderHeading (s : AppState) : Option String :=
  s.weather.map fun w =>
    w.now.name ++ ": " ++ toString w.now.mainTemp ++ "° " ++ unitSuffix s.unit

/-- The unit suffix the render shows, when a snapshot is displayed. -/
def renderUnitSuffix (s : AppState) : Option String :=
  s.weather.map fun _ => unitSuffix s.unit

/-- A concrete successful current-conditions payload, for witnesses. -/
def demoNow : WeatherNow :=
  { name := "London", mainTemp := 15, icon := "01d", description := "clear sky",
    coordLat := 51, coordLon := 0 }

/-- A concrete forecast payload with ten 3-hour entries. -/
def demoForecast : ForecastResp :=
  { list := (List.range 10).map fun i => { dt_txt := toString i, mainTemp := Int.ofNat i } }

/-- An oracle on which both calls always succeed. -/
def okOracle : Oracle :=
  { current := fun _ _ _ => some demoNow, forecast := fun _ _ _ => some demoForecast }

/-- An oracle on which every call fails. -/
def errOracle : Oracle :=
  { current := fun _ _ _ => none, forecast := fun _ _ _ => none }

/-- The state after a successful submission at unit "metric" followed by one
unit toggle. -/
def c1ToggledState : AppState :=
  handleToggle (handleSubmit okOracle API_TOKEN "London" initialState).state

/-- A state carrying the failure message left by an earlier failed fetch. -/
def staleErrorState : AppState :=
  { initialState with fetchError := fetchFailMsg }

/-- Indices rejected by the stride-8 predicate can be skipped in one block:
if none of the next `k` indices is divisible by 8, the filter ignores the
next `k` elements. -/
theorem filterWithIndexFrom_skip {α : Type} (k : Nat) :
    ∀ (i : Nat) (l : List α), (∀ j, j < k → ¬((i + j) % 8 = 0)) →
      filterWithIndexFrom (fun idx _ => idx % 8 == 0) i l =
        filterWithIndexFrom (fun idx _ => idx % 8 == 0) (i + k) (l.drop k) := by
  induction k with
  | zero => intro i l _; simp
  | succ k ih =>
    intro i l h
    cases l with
    | nil => simp [filterWithIndexFrom]
    | cons a rest =>
      have h0 : ¬(i % 8 = 0) := by
        have := h 0 (Nat.succ_pos k)
        simpa using this
      rw [List.drop_succ_cons, filterWithIndexFrom, if_neg (by simpa using h0)]
      have step := ih (i + 1) rest (fun j hj => by
        have := h (j + 1) (by omega)
        omega)
      rw [step]
      have e : i + 1 + k = i + (k + 1) := by omega
      rw [e]

/-- Unfolding the stride-8 filter at an index divisible by 8: it keeps the
head and then skips the next seven elements. -/
theorem filterWithIndexFrom_step8 {α : Type} (m : Nat) (a : α) (rest : List α) :
    filterWithIndexFrom (fun idx _ => idx % 8 == 0) (8 * m) (a :: rest) =
      a :: filterWithIndexFrom (fun idx _ => idx % 8 == 0) (8 * (m + 1)) (rest.drop 7) := by
  rw [filterWithIndexFrom, if_pos (by simp [Nat.mul_mod_right])]
  have h := filterWithIndexFrom_skip 7 (8 * m + 1) rest (fun j hj => by omega)
  rw [h]
  have e : 8 * m + 1 + 7 = 8 * (m + 1) := by omega
  rw [e]

/-- Length of the stride-8 filter started at any multiple of 8. -/
theorem filterWithIndexFrom_length8 : ∀ (l : List ForecastEntry) (m : Nat),
    (filterWithIndexFrom (fun idx _ => idx % 8 == 0) (8 * m) l).length =
      (l.length + 7) / 8
  | [], _ => by simp [filterWithIndexFrom]
  | a :: rest, m => by
    rw [filterWithIndexFrom_step8]
    have ih := filterWithIndexFrom_length8 (rest.drop 7) (m + 1)
    simp only [List.length_cons, List.length_drop] at ih ⊢
    omega
termination_by l _ => l.length
decreasing_by simp [List.length_drop]; omega

/-- Elements of the stride-8 filter started at any multiple of 8: the i-th
output element is the input element at index 8*i. -/
theorem filterWithIndexFrom_get8 : ∀ (l : List ForecastEntry) (m i : Nat),
    (filterWithIndexFrom (fun idx _ => idx % 8 == 0) (8 * m) l)[i]? = l[8 * i]?
  | [], _, _ => by simp [filterWithIndexFrom]
  | a :: rest, m, i => by
    rw [filterWithIndexFrom_step8]
    cases i with
    | zero => simp
    | succ i =>
      have ih := filterWithIndexFrom_get8 (rest.drop 7) (m + 1) i
      rw [List.getElem?_cons_succ, ih, List.getElem?_drop]
      have e : 8 * (i + 1) = (7 + 8 * i) + 1 := by omega
      rw [e, List.getElem?_cons_succ]
termination_by l _ _ => l.length
decreasing_by simp [List.length_drop]; omega

/-- Every request a submission issues carries the state's current unit and
the submitted city name verbatim as its query parameters. -/
theorem mem_requestsOf_handleSubmit (oracle : Oracle) (token cityName : String)
    (s : AppState) (r : Request)
    (hr : r ∈ requestsOf (handleSubmit oracle token cityName s).events) :
    Request.units r = s.unit ∧ Request.q r = cityName := by
  unfold handleSubmit at hr
  cases hv : validateCityName cityName with
  | some msg =>
    rw [hv] at hr
    simp [requestsOf] at hr
  | none =>
    rw [hv] at hr
    simp only at hr
    unfold onSubmitEvents at hr
    by_cases ht : token = ""
    · rw [if_pos ht] at hr
      simp [requestsOf] at hr
    · rw [if_neg ht] at hr
      cases hc : oracle.current cityName token s.unit with
      | none =>
        rw [hc] at hr
        simp [requestsOf] at hr
        subst hr
        exact ⟨rfl, rfl⟩
      | some now =>
        rw [hc] at hr
        cases hf : oracle.forecast cityName token s.unit with
        | none =>
          rw [hf] at hr
          simp [requestsOf] at hr
          rcases hr with hr | hr <;> subst hr <;> exact ⟨rfl, rfl⟩
        | some fc =>
          rw [hf] at hr
          simp [requestsOf] at hr
          rcases hr with hr | hr <;> subst hr <;> exact ⟨rfl, rfl⟩

/-- C2 (confirmed): the Forecast Sampler (line 129) keeps exactly the entries
whose index is congruent to 0 mod 8, in order: for a list of length N the
output has length ceil(N/8) = (N+7)/8, and the i-th output element is the
input element at index 8*i. -/
theorem c2_dailyData_samples_every_eighth (l : List ForecastEntry) :
    (dailyData l).length = (l.length + 7) / 8 ∧
      ∀ i : Nat, (dailyData l)[i]? = l[8 * i]? := by
  refine ⟨?_, fun i => ?_⟩
  · simpa [dailyData, filterWithIndex] using filterWithIndexFrom_length8 l 0
  · simpa [dailyData, filterWithIndex] using filterWithIndexFrom_get8 l 0 i

/-- C3 (confirmed): submitting a city name whose trimmed form is empty
performs no network call and produces exactly the validation message
"Please enter a city name."; a name with non-empty trimmed form passes
validation. -/
theorem c3_empty_city_validation (oracle : Oracle) (token cityName : String)
    (s : AppState) :
    (trimString cityName = "" →
      handleSubmit oracle token cityName s =
        { state := s, validationError := some emptyCityMsg, events := [] } ∧
      requestsOf (handleSubmit oracle token cityName s).events = []) ∧
    (trimString cityName ≠ "" →
      (handleSubmit oracle token cityName s).validationError = none) := by
  constructor
  · intro h
    have hv : validateCityName cityName = some emptyCityMsg := by
      simp [validateCityName, h]
    simp [handleSubmit, hv, requestsOf]
  · intro h
    have hv : validateCityName cityName = none := by
      simp [validateCityName, h]
    simp [handleSubmit, hv]

/-- C3 witness: the whitespace-only input "   " is rejected with the message
and triggers nothing, while "London" passes validation. -/
theorem c3_empty_city_validation_witness :
    (handleSubmit errOracle API_TOKEN "   " initialState =
      { state := initialState, validationError := some emptyCityMsg, events := [] }) ∧
    (handleSubmit errOracle API_TOKEN "London" initialState).validationError = none :=
  ⟨((c3_empty_city_validation errOracle API_TOKEN "   " initialState).1 (by decide)).1,
    (c3_empty_city_validation errOracle API_TOKEN "London" initialState).2 (by decide)⟩

/-- C4 (confirmed): the two requests of the submit handler are strictly
sequential: when the current-conditions call fails, the only request ever
issued is the current-conditions one; when it succeeds, the forecast request
is issued after it. -/
theorem c4_requests_sequential (oracle : Oracle) (unit cityName : String) :
    requestsOf (onSubmitEvents oracle API_TOKEN unit cityName) =
      match oracle.current cityName API_TOKEN unit with
      | none => [Request.currentWeather cityName API_TOKEN unit]
      | some _ =>
          [Request.currentWeather cityName API_TOKEN unit,
           Request.forecast cityName API_TOKEN unit] := by
  have ht : ¬(API_TOKEN = "") := by decide
  cases hc : oracle.current cityName API_TOKEN unit with
  | none => simp [onSubmitEvents, ht, hc, requestsOf]
  | some now =>
    cases hf : oracle.forecast cityName API_TOKEN unit with
    | none => simp [onSubmitEvents, ht, hc, hf, requestsOf]
    | some fc => simp [onSubmitEvents, ht, hc, hf, requestsOf]

/-- C6 (confirmed): with an absent (empty, hence falsy) API credential the
submit handler fails immediately with the missing-key message, issues no
network request, and leaves the weather and location state unchanged. -/
theorem c6_missing_key_guard (oracle : Oracle) (unit cityName : String)
    (s : AppState) :
    onSubmitEvents oracle "" unit cityName = [Event.setFetchError missingKeyMsg] ∧
    requestsOf (onSubmitEvents oracle "" unit cityName) = [] ∧
    (applyEvents s (onSubmitEvents oracle "" unit cityName)).fetchError = missingKeyMsg ∧
    (applyEvents s (onSubmitEvents oracle "" unit cityName)).weather = s.weather ∧
    (applyEvents s (onSubmitEvents oracle "" unit cityName)).location = s.location := by
  simp [onSubmitEvents, requestsOf, applyEvents, applyEvent]

/-- C10 (confirmed): API_TOKEN is a hardcoded non-empty literal, so the
missing-key guard is dead code: no run of the submit handler performs a
setFetchError with the missing-key message, and every run begins by issuing
the current-conditions request. -/
theorem c10_missing_key_unreachable (oracle : Oracle) (unit cityName : String) :
    API_TOKEN ≠ "" ∧
    Event.setFetchError missingKeyMsg ∉ onSubmitEvents oracle API_TOKEN unit cityName ∧
    (onSubmitEvents oracle API_TOKEN unit cityName).head? =
      some (Event.request (Request.currentWeather cityName API_TOKEN unit)) := by
  have ht : ¬(API_TOKEN = "") := by decide
  have hne : ¬(missingKeyMsg = fetchFailMsg) := by decide
  have hne2 : ¬(missingKeyMsg = "") := by decide
  refine ⟨ht, ?_, ?_⟩
  · cases hc : oracle.current cityName API_TOKEN unit with
    | none => simp [onSubmitEvents, ht, hc, hne, hne2]
    | some now =>
      cases hf : oracle.forecast cityName API_TOKEN unit with
      | none => simp [onSubmitEvents, ht, hc, hf, hne, hne2]
      | some fc => simp [onSubmitEvents, ht, hc, hf, hne, hne2]
  · cases hc : oracle.current cityName API_TOKEN unit with
    | none => simp [onSubmitEvents, ht, hc]
    | some now =>
      cases hf : oracle.forecast cityName API_TOKEN unit with
      | none => simp [onSubmitEvents, ht, hc, hf]
      | some fc => simp [onSubmitEvents, ht, hc, hf]

/-- C5 (confirmed): when either network call of a submission fails, the
fetch error is set to exactly the fixed failure message and no snapshot is
created or replaced: the weather and location state keep their prior
values. -/
theorem c5_failure_leaves_snapshot (oracle : Oracle) (cityName : String)
    (s : AppState)
    (hv : validateCityName cityName = none)
    (hfail : oracle.current cityName API_TOKEN s.unit = none ∨
      oracle.forecast cityName API_TOKEN s.unit = none) :
    (handleSubmit oracle API_TOKEN cityName s).state.fetchError = fetchFailMsg ∧
    (handleSubmit oracle API_TOKEN cityName s).state.weather = s.weather ∧
    (handleSubmit oracle API_TOKEN cityName s).state.location = s.location := by
  have ht : ¬(API_TOKEN = "") := by decide
  rcases hfail with hc | hf
  · simp [handleSubmit, hv, onSubmitEvents, ht, hc, applyEvents, applyEvent]
  · cases hc : oracle.current cityName API_TOKEN s.unit with
    | none => simp [handleSubmit, hv, onSubmitEvents, ht, hc, applyEvents, applyEvent]
    | some now =>
      simp [handleSubmit, hv, onSubmitEvents, ht, hc, hf, applyEvents, applyEvent]

/-- C5 witness: the unknown city "Qwxyzzz" on an all-failing oracle yields
the failure message and leaves the initial (empty) weather state alone. -/
theorem c5_failure_leaves_snapshot_witness :
    (handleSubmit errOracle API_TOKEN "Qwxyzzz" initialState).state.fetchError =
      fetchFailMsg ∧
    (handleSubmit errOracle API_TOKEN "Qwxyzzz" initialState).state.weather =
      initialState.weather :=
  ⟨(c5_failure_leaves_snapshot errOracle "Qwxyzzz" initialState (by decide)
      (Or.inl rfl)).1,
    (c5_failure_leaves_snapshot errOracle "Qwxyzzz" initialState (by decide)
      (Or.inl rfl)).2.1⟩

/-- C8 (confirmed): the toggle flips metric to imperial and back, changes
nothing else (weather, location, fetch error), issues no request, and the
next submission's requests all carry the new unit. -/
theorem c8_toggle_only_flips_unit (s : AppState) :
    (handleToggle s).unit = toggleUnit s.unit ∧
    toggleUnit "metric" = "imperial" ∧
    toggleUnit "imperial" = "metric" ∧
    (handleToggle s).weather = s.weather ∧
    (handleToggle s).location = s.location ∧
    (handleToggle s).fetchError = s.fetchError ∧
    requestsOf (toggleEvents s) = [] ∧
    (∀ (oracle : Oracle) (cityName : String) (r : Request),
      r ∈ requestsOf (handleSubmit oracle API_TOKEN cityName (handleToggle s)).events →
        Request.units r = toggleUnit s.unit) := by
  have hunit : (handleToggle s).unit = toggleUnit s.unit := by
    simp [handleToggle, toggleEvents, applyEvents, applyEvent]
  refine ⟨hunit, by decide, by decide, ?_, ?_, ?_, ?_, ?_⟩
  · simp [handleToggle, toggleEvents, applyEvents, applyEvent]
  · simp [handleToggle, toggleEvents, applyEvents, applyEvent]
  · simp [handleToggle, toggleEvents, applyEvents, applyEvent]
  · simp [toggleEvents, requestsOf]
  · intro oracle cityName r hr
    have h := mem_requestsOf_handleSubmit oracle API_TOKEN cityName (handleToggle s) r hr
    rw [h.1, hunit]

/-- C8 witness: from the initial state, toggling keeps the (empty) snapshot
and a subsequent submission's current-conditions request carries the new
unit "imperial". -/
theorem c8_toggle_only_flips_unit_witness :
    (handleToggle initialState).weather = initialState.weather ∧
    Request.units (Request.currentWeather "London" API_TOKEN "imperial") =
      toggleUnit initialState.unit := by
  obtain ⟨-, -, -, hw, -, -, -, hreq⟩ := c8_toggle_only_flips_unit initialState
  exact ⟨hw, hreq okOracle "London" _ (by decide)⟩

/-- C1 counterexample: the suffix is rendered from the unit current at
display time (line 183), not the unit in effect at submission time.
Submitting successfully while "metric" is active (suffix "C") and then
toggling the unit leaves the same fetched snapshot displayed, but with
suffix "F". -/
theorem c1_counterexample :
    unitSuffix initialState.unit = "C" ∧
    c1ToggledState.weather =
      (handleSubmit okOracle API_TOKEN "London" initialState).state.weather ∧
    c1ToggledState.weather ≠ none ∧
    renderUnitSuffix c1ToggledState = some "F" := by decide

/-- C1 (amended): the displayed unit suffix corresponds to the UnitSetting
current at display time: right after a successful submission it equals the
submission unit's suffix, and after a toggle the unchanged snapshot is
displayed with the toggled unit's suffix. -/
theorem c1_suffix_tracks_display_unit (s : AppState) (oracle : Oracle)
    (cityName : String) (now : WeatherNow) (fc : ForecastResp)
    (hv : validateCityName cityName = none)
    (hc : oracle.current cityName API_TOKEN s.unit = some now)
    (hf : oracle.forecast cityName API_TOKEN s.unit = some fc) :
    renderUnitSuffix (handleSubmit oracle API_TOKEN cityName s).state =
      some (unitSuffix s.unit) ∧
    (handleToggle (handleSubmit oracle API_TOKEN cityName s).state).weather =
      (handleSubmit oracle API_TOKEN cityName s).state.weather ∧
    renderUnitSuffix (handleToggle (handleSubmit oracle API_TOKEN cityName s).state) =
      some (unitSuffix (toggleUnit s.unit)) := by
  have ht : ¬(API_TOKEN = "") := by decide
  simp [handleSubmit, hv, onSubmitEvents, ht, hc, hf, applyEvents, applyEvent,
    handleToggle, toggleEvents, renderUnitSuffix]

/-- C1 amended witness: a concrete successful submission from the initial
state, before and after one toggle. -/
theorem c1_suffix_tracks_display_unit_witness :
    renderUnitSuffix (handleSubmit okOracle API_TOKEN "London" initialState).state =
      some (unitSuffix initialState.unit) ∧
    (handleToggle (handleSubmit okOracle API_TOKEN "London" initialState).state).weather =
      (handleSubmit okOracle API_TOKEN "London" initialState).state.weather ∧
    renderUnitSuffix
        (handleToggle (handleSubmit okOracle API_TOKEN "London" initialState).state) =
      some (unitSuffix (toggleUnit initialState.unit)) :=
  c1_suffix_tracks_display_unit initialState okOracle "London" demoNow demoForecast
    (by decide) rfl rfl

/-- C7 counterexample: both halves of the claim fail on the code. Setting: a
validation failure (input "   ") surfaces only the form validation message
while fetchError keeps its prior value "" (in particular it never carries the
validation message). Clearing: starting from a state carrying the failure
message, after the first request of a successful submission is issued the
old message is still present, and it is still present after both responses
have arrived and the snapshot and location have been stored; only the
handler's final effect clears it, so error text does coexist with the
in-progress successful fetch. -/
theorem c7_counterexample :
    (handleSubmit okOracle API_TOKEN "   " initialState).validationError =
      some emptyCityMsg ∧
    (handleSubmit okOracle API_TOKEN "   " initialState).state.fetchError =
      initialState.fetchError ∧
    (handleSubmit okOracle API_TOKEN "   " initialState).state.fetchError ≠
      emptyCityMsg ∧
    (applyEvents staleErrorState
      ((handleSubmit okOracle API_TOKEN "London" staleErrorState).events.take 1)).fetchError
      = fetchFailMsg ∧
    (applyEvents staleErrorState
      ((handleSubmit okOracle API_TOKEN "London" staleErrorState).events.take 4)).fetchError
      = fetchFailMsg ∧
    (handleSubmit okOracle API_TOKEN "London" staleErrorState).state.fetchError = "" ∧
    (handleSubmit okOracle API_TOKEN "London" staleErrorState).state.weather ≠ none := by
  decide

/-- C7 (amended): the error message is set on network failure, while a
validation failure surfaces only the form validation message and leaves
fetchError untouched; and it is cleared at the completion of the next
successful fetch, not at its initiation: a successful run's effects are the
two requests, the snapshot and location stores, and a final setFetchError ""
as the very last effect, and every stage before that last effect leaves the
previous error message in place. -/
theorem c7_error_lifecycle (s : AppState) (oracle : Oracle)
    (cityName : String) :
    (trimString cityName = "" →
      (handleSubmit oracle API_TOKEN cityName s).state = s ∧
      (handleSubmit oracle API_TOKEN cityName s).validationError =
        some emptyCityMsg) ∧
    (validateCityName cityName = none →
      (oracle.current cityName API_TOKEN s.unit = none ∨
        oracle.forecast cityName API_TOKEN s.unit = none) →
      (handleSubmit oracle API_TOKEN cityName s).state.fetchError = fetchFailMsg) ∧
    (∀ (now : WeatherNow) (fc : ForecastResp),
      validateCityName cityName = none →
      oracle.current cityName API_TOKEN s.unit = some now →
      oracle.forecast cityName API_TOKEN s.unit = some fc →
      (handleSubmit oracle API_TOKEN cityName s).events =
        [Event.request (Request.currentWeather cityName API_TOKEN s.unit),
         Event.request (Request.forecast cityName API_TOKEN s.unit),
         Event.setWeather { now := now, future := dailyData fc.list },
         Event.setLocation { lat := now.coordLat, lon := now.coordLon },
         Event.setFetchError ""] ∧
      (∀ k, k < 5 →
        (applyEvents s
          ((handleSubmit oracle API_TOKEN cityName s).events.take k)).fetchError
          = s.fetchError) ∧
      (handleSubmit oracle API_TOKEN cityName s).state.fetchError = "") := by
  have ht : ¬(API_TOKEN = "") := by decide
  refine ⟨?_, ?_, ?_⟩
  · intro h
    have hv : validateCityName cityName = some emptyCityMsg := by
      simp [validateCityName, h]
    simp [handleSubmit, hv]
  · intro hv hfail
    rcases hfail with hc | hf
    · simp [handleSubmit, hv, onSubmitEvents, ht, hc, applyEvents, applyEvent]
    · cases hc : oracle.current cityName API_TOKEN s.unit with
      | none => simp [handleSubmit, hv, onSubmitEvents, ht, hc, applyEvents, applyEvent]
      | some now =>
        simp [handleSubmit, hv, onSubmitEvents, ht, hc, hf, applyEvents, applyEvent]
  · intro now fc hv hc hf
    have hes : (handleSubmit oracle API_TOKEN cityName s).events =
        [Event.request (Request.currentWeather cityName API_TOKEN s.unit),
         Event.request (Request.forecast cityName API_TOKEN s.unit),
         Event.setWeather { now := now, future := dailyData fc.list },
         Event.setLocation { lat := now.coordLat, lon := now.coordLon },
         Event.setFetchError ""] := by
      simp [handleSubmit, hv, onSubmitEvents, ht, hc, hf]
    refine ⟨hes, ?_, ?_⟩
    · intro k hk
      rw [hes]
      interval_cases k <;> simp [applyEvents, applyEvent]
    · simp [handleSubmit, hv, onSubmitEvents, ht, hc, hf, applyEvents, applyEvent]

/-- C7 amended witness: concretely, a validation failure at "   " leaves the
state alone while producing the form message; a network failure at "Oslo"
sets the failure message; and in a successful submission from a state
carrying an old error message, the message survives the first request and is
gone in the final state. -/
theorem c7_error_lifecycle_witness :
    (handleSubmit okOracle API_TOKEN "   " initialState).validationError =
      some emptyCityMsg ∧
    (handleSubmit errOracle API_TOKEN "Oslo" initialState).state.fetchError =
      fetchFailMsg ∧
    (applyEvents staleErrorState
      ((handleSubmit okOracle API_TOKEN "Paris" staleErrorState).events.take 1)).fetchError
      = staleErrorState.fetchError ∧
    (handleSubmit okOracle API_TOKEN "Paris" staleErrorState).state.fetchError = "" := by
  refine ⟨((c7_error_lifecycle initialState okOracle "   ").1 (by decide)).2,
    (c7_error_lifecycle initialState errOracle "Oslo").2.1 (by decide) (Or.inl rfl),
    ?_, ?_⟩
  · obtain ⟨-, h2, -⟩ := (c7_error_lifecycle staleErrorState okOracle "Paris").2.2
      demoNow demoForecast (by decide) rfl rfl
    exact h2 1 (by omega)
  · obtain ⟨-, -, h3⟩ := (c7_error_lifecycle staleErrorState okOracle "Paris").2.2
      demoNow demoForecast (by decide) rfl rfl
    exact h3

/-- C9 counterexample: formik passes the raw form value to the submit
handler, so the q query parameter is the submitted string verbatim, not its
trimmed form. Submitting " London " passes validation (its trimmed form
"London" is non-empty) but the request issued carries the untrimmed
" London " as q. -/
theorem c9_counterexample :
    validateCityName " London " = none ∧
    trimString " London " = "London" ∧
    requestsOf (handleSubmit errOracle API_TOKEN " London " initialState).events =
      [Request.currentWeather " London " API_TOKEN "metric"] ∧
    Request.q (Request.currentWeather " London " API_TOKEN "metric") ≠ "London" := by
  decide

/-- C9 (amended): the q query parameter of every request a submission issues
is the submitted city-name string verbatim (untrimmed); trimming is applied
only inside validation, to decide non-emptiness. -/
theorem c9_q_is_raw_input (oracle : Oracle) (token cityName : String)
    (s : AppState) (r : Request)
    (hr : r ∈ requestsOf (handleSubmit oracle token cityName s).events) :
    Request.q r = cityName :=
  (mem_requestsOf_handleSubmit oracle token cityName s r hr).2

/-- C9 amended witness: the concrete request issued for input " London "
carries exactly " London " as its q parameter. -/
theorem c9_q_is_raw_input_witness :
    Request.q (Request.currentWeather " London " API_TOKEN "metric") = " London " :=
  c9_q_is_raw_input errOracle API_TOKEN " London " initialState _ (by decide)

end Weather
